import Mathlib

/-!
# Verification of the image-gen-gallery backend

Shallow embedding of the Python backend under `backend/app/` and proofs of
the behavioural claims about it.  Each embedded definition cites the source
file and function it is translated from.  Machine-level concerns the
embedding handles are noted in place: datetimes are modelled as integers
(seconds), and the filesystem and database are explicit state threaded
through the functions.  `await` of an actual coroutine is erased (the call
is a call), but `image_service.py` defines its functions as plain sync
`def`s while their callers `await` them: awaiting the returned `str`,
`None` or `list` raises `TypeError` at runtime, and the affected callers
are embedded with exactly that exception path (see `save_image_from_base64`
and `get_image_file`).  Likewise the dead `except` clause of
`storage_service.save_image_and_metadata`, whose evaluation raises
`AttributeError`, is embedded as the escape it really is.
-/

namespace ImageGenGallery

/-! ## `backend/app/schemas/validators.py` -/

/-- Embeds `validate_model_n` (validators.py, lines 30-35):
raises `ValueError` when `n < 1 or n > 10`, otherwise returns `n` unchanged.
A raised `ValueError` is modelled as `Except.error` carrying the message. -/
def validate_model_n (n : Int) : Except String Int :=
  if n < 1 ∨ n > 10 then
    Except.error "The number of images (n) must be between 1 and 10."
  else
    Except.ok n

/-! ## `backend/app/core/rate_limit.py`

`RateLimiter` keeps `self.requests : Dict[str, list[datetime]]` guarded by a
single `asyncio.Lock`; `check_rate_limit` runs entirely under that lock, so
each call is atomic and is modelled as a pure state transformer on the
timestamp list recorded for one identifier (`defaultdict(list)` makes the
initial list empty).  Timestamps are integers (seconds). -/

/-- The clean-up step of `check_rate_limit` (rate_limit.py, lines 39-43):
`[req_time for req_time in self.requests[identifier] if req_time > window_start]`. -/
def prune_requests (requests : List Int) (windowStart : Int) : List Int :=
  requests.filter (fun reqTime => windowStart < reqTime)

/-- Embeds `RateLimiter.check_rate_limit` (rate_limit.py, lines 18-51) acting
on the timestamp list of a single identifier.  Returns the boolean result
together with the new list stored for the identifier. -/
def check_rate_limit (requests : List Int) (now : Int)
    (maxRequests : Nat) (windowSeconds : Int) : Bool × List Int :=
  let pruned := prune_requests requests (now - windowSeconds)
  if maxRequests ≤ pruned.length then
    (false, pruned)
  else
    (true, pruned ++ [now])

/-- A sequence of `check_rate_limit` calls for one identifier, all using the
same `maxRequests`; each call supplies its own `now` and `windowSeconds`.
The dict starts empty (`defaultdict(list)`), so the initial list is `[]`. -/
def run_rate_limit_calls (maxRequests : Nat) :
    List (Int × Int) → List Int → List Int
  | [], st => st
  | (now, window) :: rest, st =>
      run_rate_limit_calls maxRequests rest
        (check_rate_limit st now maxRequests window).2

theorem check_rate_limit_length_step (st : List Int) (now : Int)
    (maxRequests : Nat) (window : Int)
    (h : st.length ≤ maxRequests) :
    (check_rate_limit st now maxRequests window).2.length ≤ maxRequests := by
  rw [check_rate_limit]
  by_cases hc :
      maxRequests ≤ (prune_requests st (now - window)).length
  · rw [if_pos hc]
    exact le_trans (List.length_filter_le _ _) h
  · rw [if_neg hc]
    simp only [List.length_append, List.length_cons, List.length_nil]
    omega

/-- Claim C4: executed under the limiter's single lock, `check_rate_limit` first
discards every recorded timestamp older than `windowSeconds`; if at least
`maxRequests` timestamps remain it returns `false` and stores exactly that
pruned list (no further change), otherwise it appends the current time and
returns `true`; consequently, along any sequence of calls that all use the
same `maxRequests` (starting from the empty initial dict entry), the list
recorded for the identifier never exceeds `maxRequests` entries. -/
theorem check_rate_limit_spec (st : List Int) (now : Int)
    (maxRequests : Nat) (window : Int) :
    ((maxRequests ≤ (prune_requests st (now - window)).length →
        check_rate_limit st now maxRequests window =
          (false, prune_requests st (now - window))) ∧
     ((prune_requests st (now - window)).length < maxRequests →
        check_rate_limit st now maxRequests window =
          (true, prune_requests st (now - window) ++ [now]))) ∧
    (∀ calls : List (Int × Int),
      (run_rate_limit_calls maxRequests calls []).length ≤ maxRequests) := by
  refine ⟨⟨fun h => ?_, fun h => ?_⟩, fun calls => ?_⟩
  · rw [check_rate_limit]
    exact if_pos h
  · rw [check_rate_limit]
    exact if_neg (Nat.not_le.mpr h)
  · have general : ∀ (cs : List (Int × Int)) (st0 : List Int),
        st0.length ≤ maxRequests →
        (run_rate_limit_calls maxRequests cs st0).length ≤ maxRequests := by
      intro cs
      induction cs with
      | nil => intro st0 h0; simpa [run_rate_limit_calls] using h0
      | cons c rest ih =>
          intro st0 h0
          simpa [run_rate_limit_calls] using
            ih _ (check_rate_limit_length_step st0 c.1 maxRequests c.2 h0)
    exact general calls [] (by simp)

/-- Witness for `check_rate_limit_spec` at concrete inputs: state `[3, 9]`,
`now = 10`, `maxRequests = 1`, `window = 5` (the timestamp `3` is pruned,
one timestamp remains, so the call is denied and the pruned list is kept). -/
theorem check_rate_limit_spec_witness :
    check_rate_limit [3, 9] 10 1 5 = (false, [9]) ∧
    (run_rate_limit_calls 1 [(10, 5), (11, 5)] []).length ≤ 1 := by
  constructor
  · have h := (check_rate_limit_spec [3, 9] 10 1 5).1.1 (by decide)
    simpa using h
  · exact (check_rate_limit_spec [3, 9] 10 1 5).2 [(10, 5), (11, 5)]

/-! ## `backend/app/services/image_service.py`

The SQLite table `image_metadata` (see `initialize_database`) is modelled as
a list of rows; timestamps are integers.  The pydantic `ImageMetadata`
validation performed per-row inside `get_all_image_metadata` (the
`try/except ValidationError` at lines 54-77, which silently skips bad rows)
is abstracted by a predicate `rowOk`; a transient `sqlite3.Error` raised by
the query is abstracted by the flag `dbError`. -/

/-- A row of the `image_metadata` table. -/
structure DbRow where
  id : String
  prompt : String
  parameters : Option String
  filename : String
  timestamp : Int
deriving DecidableEq

/-- Embeds the pydantic model `ImageMetadata` (models/image_metadata.py). -/
structure ImageMetadata where
  id : String
  prompt : String
  parameters : Option String
  filename : String
  timestamp : Int
deriving DecidableEq

/-- Constructing `ImageMetadata(**metadata_data)` from a fetched row
(image_service.py, lines 69-73); all five columns are carried over. -/
def rowToMetadata (r : DbRow) : ImageMetadata :=
  ⟨r.id, r.prompt, r.parameters, r.filename, r.timestamp⟩

/-- The sort parameter of `get_all_image_metadata`. -/
inductive SortOrder where
  | newest
  | oldest
deriving DecidableEq

/-- Comparison used by `ORDER BY timestamp DESC` (the `"newest"` order). -/
def newest_le (a b : DbRow) : Prop := b.timestamp ≤ a.timestamp

/-- Comparison used by `ORDER BY timestamp ASC` (the `"oldest"` order). -/
def oldest_le (a b : DbRow) : Prop := a.timestamp ≤ b.timestamp

instance : DecidableRel newest_le := fun a b =>
  inferInstanceAs (Decidable (b.timestamp ≤ a.timestamp))

instance : DecidableRel oldest_le := fun a b =>
  inferInstanceAs (Decidable (a.timestamp ≤ b.timestamp))

instance : IsTotal DbRow newest_le :=
  ⟨fun a b => le_total b.timestamp a.timestamp⟩

instance : IsTotal DbRow oldest_le :=
  ⟨fun a b => le_total a.timestamp b.timestamp⟩

instance : IsTrans DbRow newest_le :=
  ⟨fun _ _ _ h1 h2 => le_trans h2 h1⟩

instance : IsTrans DbRow oldest_le :=
  ⟨fun _ _ _ h1 h2 => le_trans h1 h2⟩

/-- The query's ORDER BY timestamp (DESC or ASC) over the table.  SQLite leaves the
relative order of equal timestamps unspecified; we pick a concrete stable
sort, and the theorems below rely only on sortedness. -/
def order_by_timestamp (sort : SortOrder) (db : List DbRow) : List DbRow :=
  match sort with
  | .newest => db.insertionSort newest_le
  | .oldest => db.insertionSort oldest_le

/-- SQLite `OFFSET ?`: a negative offset is treated as 0. -/
def sqlite_offset (offset : Int) (rows : List DbRow) : List DbRow :=
  rows.drop offset.toNat

/-- SQLite `LIMIT ?`: a negative limit means "no limit". -/
def sqlite_limit (limit : Int) (rows : List DbRow) : List DbRow :=
  if limit < 0 then rows else rows.take limit.toNat

/-- Embeds `get_all_image_metadata` (image_service.py, lines 23-91):
`SELECT ... ORDER BY timestamp {order_clause} LIMIT ? OFFSET ?`, then each
fetched row is turned into an `ImageMetadata` (rows failing validation are
skipped); any `sqlite3.Error` (or unexpected error) yields `[]`. -/
def get_all_image_metadata (db : List DbRow) (rowOk : DbRow → Bool)
    (dbError : Bool) (limit offset : Int) (sort : SortOrder) :
    List ImageMetadata :=
  if dbError then []
  else
    ((sqlite_limit limit
        (sqlite_offset offset (order_by_timestamp sort db))).filter
      rowOk).map rowToMetadata

/-- Embeds `get_image_filename_by_id` (image_service.py, lines 93-115):
`SELECT filename FROM image_metadata WHERE id = ?` with `fetchone`, returning
`None` when no row matches or when a database error occurs. -/
def get_image_filename_by_id (db : List DbRow) (dbError : Bool)
    (imageId : String) : Option String :=
  if dbError then none
  else (db.find? (fun r => r.id = imageId)).map (fun r => r.filename)

/-! ## `backend/app/routes/image_routes.py`

A route handler's result is either a `FileResponse` (path and media type) or
an `HTTPException` (status code and detail).  The filesystem is abstracted by
a predicate `isFile` on paths, a path being the list of its components;
`IMAGE_STORAGE_PATH / filename` appends one component to the storage
directory. -/

/-- Result of a FastAPI route handler that serves files. -/
inductive HttpResult where
  | fileResponse (path : List String) (mediaType : Option String)
  | httpError (status : Nat) (detail : String)
deriving DecidableEq

/-- The check of the source, in Python `'/' in filename or '\\' in filename` (image_routes.py, lines 53, 103);
strings are handled through their character lists. -/
def has_path_separator (filename : String) : Bool :=
  filename.data.any (fun c => c = '/' || c = '\\')

/-- Media-type selection from the lower-cased `Path.suffix`
(image_routes.py, lines 65-73), via character lists. -/
def media_type_for (filename : String) : Option String :=
  let lower := filename.data.map Char.toLower
  if List.isSuffixOf ".png".data lower then some "image/png"
  else if List.isSuffixOf ".jpg".data lower
      || List.isSuffixOf ".jpeg".data lower then
    some "image/jpeg"
  else none

/-- Embeds `get_image_by_filename`, the handler of
`GET /api/images/file/{filename}` (image_routes.py, lines 46-85).
`storageDir` is `IMAGE_STORAGE_PATH` as a component list and `isFile` is the
filesystem's `Path.is_file` oracle. -/
def get_image_by_filename (storageDir : List String)
    (isFile : List String → Bool) (filename : String) : HttpResult :=
  if has_path_separator filename then
    .httpError 400 "Invalid image reference"
  else
    let filePath := storageDir ++ [filename]
    if isFile filePath then
      .fileResponse filePath (media_type_for filename)
    else
      .httpError 404 "Image file not found"

/-- Embeds `get_image_file`, the handler of `GET /api/images/{image_id}`
(image_routes.py, lines 87-137), as the source runs.  Its first statement
is `filename = await get_image_filename_by_id(image_id)` (line 92), and
`get_image_filename_by_id` is a plain sync `def` returning
`Optional[str]`: the side-effect-free lookup completes, but the `await`
on its `str` / `None` result raises `TypeError`, which the handler's
generic `except` turns into HTTP 500.  So every request — known id,
unknown id, missing file, separator filename alike — answers 500, and the
404 / 400 / serve branches further down the handler are unreachable.  The
parameters are kept (underscored, as none can influence the answer) to
state that independence. -/
def get_image_file (_storageDir : List String)
    (_isFile : List String → Bool) (_db : List DbRow) (_dbError : Bool)
    (_imageId : String) : HttpResult :=
  .httpError 500 "Internal server error retrieving image file."

/-- The query window actually fetched by `get_all_image_metadata` for a
nonnegative limit: sort, skip `offset` rows, return at most `limit` rows. -/
theorem get_all_image_metadata_eq_window (db : List DbRow)
    (rowOk : DbRow → Bool) (limit offset : Int) (sort : SortOrder)
    (hlim : 0 ≤ limit) :
    get_all_image_metadata db rowOk false limit offset sort =
      ((((order_by_timestamp sort db).drop offset.toNat).take
          limit.toNat).filter rowOk).map rowToMetadata := by
  simp [get_all_image_metadata, sqlite_limit, sqlite_offset,
    Int.not_lt.mpr hlim]

/-- Claim C7 counterexample: the claim quantifies over every `limit`, but SQLite
treats a negative `LIMIT` as "no limit", so with a one-row table and
`limit = -1` the function returns one record, not at most `-1`. -/
theorem get_all_image_metadata_negative_limit_counterexample :
    (get_all_image_metadata [⟨"id0", "p", none, "f.png", 0⟩]
        (fun _ => true) false (-1) 0 SortOrder.newest).length = 1 ∧
    (-1 : Int) <
      ((get_all_image_metadata [⟨"id0", "p", none, "f.png", 0⟩]
        (fun _ => true) false (-1) 0 SortOrder.newest).length : Int) := by
  constructor
  · rfl
  · decide

/-- Claim C7 (amended: for every *nonnegative* `limit`):
`get_all_image_metadata` returns `[]` when a database error occurs; it
returns at most `limit` records, taken from the window that skips the first
`offset` sorted rows; the records are ordered by timestamp descending for
`"newest"` and ascending for `"oldest"`; and every record is a row of the
table (one that passed validation). -/
theorem get_all_image_metadata_spec (db : List DbRow)
    (rowOk : DbRow → Bool) (dbError : Bool) (limit offset : Int)
    (sort : SortOrder) (hlim : 0 ≤ limit) :
    (dbError = true →
      get_all_image_metadata db rowOk dbError limit offset sort = []) ∧
    (dbError = false →
      get_all_image_metadata db rowOk dbError limit offset sort =
        ((((order_by_timestamp sort db).drop offset.toNat).take
            limit.toNat).filter rowOk).map rowToMetadata) ∧
    (get_all_image_metadata db rowOk dbError limit offset sort).length
      ≤ limit.toNat ∧
    (sort = SortOrder.newest →
      ((get_all_image_metadata db rowOk dbError limit offset sort).map
        (fun m => m.timestamp)).Pairwise (fun a b => b ≤ a)) ∧
    (sort = SortOrder.oldest →
      ((get_all_image_metadata db rowOk dbError limit offset sort).map
        (fun m => m.timestamp)).Pairwise (fun a b => a ≤ b)) ∧
    (∀ m ∈ get_all_image_metadata db rowOk dbError limit offset sort,
      ∃ r ∈ db, rowOk r = true ∧ m = rowToMetadata r) := by
  cases dbError with
  | true =>
      refine ⟨fun _ => rfl, ?_, ?_, ?_, ?_, ?_⟩ <;>
        simp [get_all_image_metadata]
  | false =>
      rw [get_all_image_metadata_eq_window db rowOk limit offset sort hlim]
      have hsub :
          List.Sublist
            ((((order_by_timestamp sort db).drop offset.toNat).take
              limit.toNat).filter rowOk)
            (order_by_timestamp sort db) :=
        ((List.filter_sublist _).trans (List.take_sublist _ _)).trans
          (List.drop_sublist _ _)
      refine ⟨?_, ?_, ?_, ?_, ?_, ?_⟩
      · intro h
        exact absurd h (by simp)
      · intro _
        rfl
      · calc (List.map rowToMetadata
              ((((order_by_timestamp sort db).drop offset.toNat).take
                limit.toNat).filter rowOk)).length
            ≤ (((order_by_timestamp sort db).drop offset.toNat).take
                limit.toNat).length := by
              rw [List.length_map]
              exact List.length_filter_le _ _
          _ ≤ limit.toNat := List.length_take_le _ _
      · intro hs
        subst hs
        rw [List.map_map, List.pairwise_map]
        exact List.Pairwise.sublist hsub
          (List.sorted_insertionSort newest_le db)
      · intro hs
        subst hs
        rw [List.map_map, List.pairwise_map]
        exact List.Pairwise.sublist hsub
          (List.sorted_insertionSort oldest_le db)
      · intro m hm
        rw [List.mem_map] at hm
        obtain ⟨r, hr, rfl⟩ := hm
        rw [List.mem_filter] at hr
        refine ⟨r, ?_, hr.2, rfl⟩
        have hmem : r ∈ order_by_timestamp sort db :=
          ((List.take_sublist _ _).trans (List.drop_sublist _ _)).mem hr.1
        cases sort with
        | newest =>
            exact (List.perm_insertionSort newest_le db).mem_iff.mp
              (by simpa [order_by_timestamp] using hmem)
        | oldest =>
            exact (List.perm_insertionSort oldest_le db).mem_iff.mp
              (by simpa [order_by_timestamp] using hmem)

/-- Witness for `get_all_image_metadata_spec` at a concrete database with
three rows, `limit = 2`, `offset = 1`, newest first. -/
theorem get_all_image_metadata_spec_witness :
    get_all_image_metadata
        [⟨"a", "p1", none, "a.png", 5⟩, ⟨"b", "p2", none, "b.png", 7⟩,
         ⟨"c", "p3", none, "c.png", 6⟩]
        (fun _ => true) false 2 1 SortOrder.newest =
      [⟨"c", "p3", none, "c.png", 6⟩, ⟨"a", "p1", none, "a.png", 5⟩] ∧
    (get_all_image_metadata
        [⟨"a", "p1", none, "a.png", 5⟩, ⟨"b", "p2", none, "b.png", 7⟩,
         ⟨"c", "p3", none, "c.png", 6⟩]
        (fun _ => true) false 2 1 SortOrder.newest).length ≤ (2 : Int).toNat := by
  constructor
  · rfl
  · exact (get_all_image_metadata_spec
      [⟨"a", "p1", none, "a.png", 5⟩, ⟨"b", "p2", none, "b.png", 7⟩,
       ⟨"c", "p3", none, "c.png", 6⟩]
      (fun _ => true) false 2 1 SortOrder.newest (by decide)).2.2.1

/-- Claim C9: a filename containing `'/'` or `'\\'` is rejected with HTTP 400 by
`GET /api/images/file/{filename}` for *every* filesystem oracle — the check
precedes any filesystem access, so the result cannot depend on it — and any
file the endpoint ever serves has path `storageDir ++ [filename]` for a
separator-free `filename`, i.e. lies directly inside the configured image
storage directory. -/
theorem get_image_by_filename_spec (storageDir : List String)
    (filename : String) :
    (has_path_separator filename = true →
      ∀ isFile : List String → Bool,
        get_image_by_filename storageDir isFile filename =
          HttpResult.httpError 400 "Invalid image reference") ∧
    (∀ (isFile : List String → Bool) (p : List String)
        (mt : Option String),
      get_image_by_filename storageDir isFile filename =
        HttpResult.fileResponse p mt →
      p = storageDir ++ [filename] ∧ has_path_separator filename = false) := by
  constructor
  · intro h isFile
    simp [get_image_by_filename, h]
  · intro isFile p mt h
    by_cases hsep : has_path_separator filename = true
    · simp [get_image_by_filename, hsep] at h
    · rw [Bool.not_eq_true] at hsep
      by_cases hf : isFile (storageDir ++ [filename]) = true
      · simp [get_image_by_filename, hsep, hf] at h
        exact ⟨h.1.symm, hsep⟩
      · simp [get_image_by_filename, hsep, hf] at h

/-- Witness for `get_image_by_filename_spec`: the traversal attempt
`"a/evil.png"` is rejected with 400 even on a filesystem where every path
is reported to be a file. -/
theorem get_image_by_filename_spec_witness :
    get_image_by_filename ["local_storage", "images"] (fun _ => true)
      "a/evil.png" = HttpResult.httpError 400 "Invalid image reference" :=
  (get_image_by_filename_spec ["local_storage", "images"] "a/evil.png").1
    (by decide) (fun _ => true)

/-- Claim C5 (refutation on the source, plus an evaluation at the failing
input): `GET /api/images/{image_id}` answers HTTP 500 for every storage
directory, filesystem, database and id; in particular for an id whose row
names a file that exists on disk (where the claim promises the file) and
for an id absent from the database (where the claim promises 404). -/
theorem get_image_file_always_500 :
    (∀ (storageDir : List String) (isFile : List String → Bool)
        (db : List DbRow) (dbError : Bool) (imageId : String),
      get_image_file storageDir isFile db dbError imageId =
        HttpResult.httpError 500
          "Internal server error retrieving image file.") ∧
    get_image_file ["local_storage", "images"]
        (fun p => decide (p = ["local_storage", "images", "img.png"]))
        [⟨"id1", "p", none, "img.png", 3⟩] false "id1" =
      HttpResult.httpError 500
        "Internal server error retrieving image file." ∧
    get_image_file ["local_storage", "images"]
        (fun p => decide (p = ["local_storage", "images", "img.png"]))
        [⟨"id1", "p", none, "img.png", 3⟩] false "other" =
      HttpResult.httpError 500
        "Internal server error retrieving image file." :=
  ⟨fun _ _ _ _ _ => rfl, rfl, rfl⟩

/-! ## `backend/app/services/storage_service.py`

`save_image_and_metadata` touches two stores: the `IMAGE_DIR` directory and
the `image_metadata` table of `metadata.db`.  Both are modelled as lists in
a `StorageState` (the order of `files` is immaterial; we prepend).  The
environment's possible failures — an `IOError` while writing the image, a
`sqlite3.Error` while inserting the row — are script flags
`writeOk`/`dbOk`; a failed write may leave a partial file behind, modelled
as the file being created before the exception fires.  `uuid4` and
`datetime.now` are the parameters `newId` and `ts`.

The function's first handler is `except (IOError,
aiofiles.os.AiofilesOSError)` (storage_service.py, line 89).  The
`aiofiles` library defines no `AiofilesOSError`, so as soon as *any*
exception arrives from the `try` block, evaluating that clause's tuple
raises `AttributeError`; an exception raised while evaluating an `except`
clause propagates out of the whole `try` statement and is not offered to
the later `except sqlite3.Error` / `except Exception` clauses.  Hence none
of the cleanup branches is reachable: the written (or partial) file stays
on disk, `None` is never returned, and the caller sees `AttributeError`
(the `finally` still closes the connection, discarding the uncommitted
insert). -/

/-- State of the storage directory plus the metadata table. -/
structure StorageState where
  files : List String
  rows : List DbRow
deriving DecidableEq

/-- The final component of a POSIX path (`Path(...).name`): the characters
after the last `'/'`. -/
def path_name (s : String) : List Char :=
  (s.data.reverse.takeWhile (fun c => c ≠ '/')).reverse

/-- Python's `Path(original_filename).suffix`: the last `'.'`-suffix of the
path's final component, empty when the dot is absent, leading, or trailing
(pathlib's `0 < i < len(name) - 1` rule over `name = path.name`), via
character lists. -/
def path_suffix (pathStr : String) : String :=
  let cs := path_name pathStr
  let afterDot := cs.reverse.takeWhile (fun c => c ≠ '.')
  if afterDot.length = cs.length then ""
  else
    let i := cs.length - afterDot.length - 1
    if 0 < i ∧ i < cs.length - 1 then String.mk ('.' :: afterDot.reverse)
    else ""

/-- Computes `file_extension = Path(original_filename).suffix or '.png'` together
with `unique_filename = f"{new_metadata.id}{file_extension}"`
(storage_service.py, lines 55-57). -/
def storage_unique_filename (newId origName : String) : String :=
  newId ++ (if path_suffix origName = "" then ".png" else path_suffix origName)

/-- Embeds `save_image_and_metadata` (storage_service.py, lines 51-118):
write the image file, then insert the metadata row.  On success the
metadata is returned.  On either failure the `except` machinery itself
breaks: evaluating `except (IOError, aiofiles.os.AiofilesOSError)` raises
`AttributeError` (there is no `AiofilesOSError`), which escapes the whole
`try`, so the file is left behind, no row is committed, and the caller
gets the exception — never `None`.  The result is
`Except String (Option ImageMetadata)` to keep the source's declared
`ImageMetadata | None` codomain visible: the `.ok none` value is
unreachable. -/
def save_image_and_metadata (st : StorageState) (newId : String) (ts : Int)
    (prompt : String) (params : Option String) (writeOk dbOk : Bool)
    (origName : String) :
    StorageState × Except String (Option ImageMetadata) :=
  let uniqueFilename := storage_unique_filename newId origName
  if writeOk = false then
    ({ files := uniqueFilename :: st.files, rows := st.rows },
     .error "AttributeError")
  else if dbOk = false then
    ({ files := uniqueFilename :: st.files, rows := st.rows },
     .error "AttributeError")
  else
    ({ files := uniqueFilename :: st.files,
       rows := ⟨newId, prompt, params, uniqueFilename, ts⟩ :: st.rows },
     .ok (some ⟨newId, prompt, params, uniqueFilename, ts⟩))

/-- Claim C8 (evaluation at the failing inputs): a failing database insert
— and equally a failing file write — leaves the written file on disk, adds
no row, and raises `AttributeError` instead of returning `None`: the
claimed delete-the-orphan-and-return-None rollback never runs, because
evaluating the dead `except (IOError, aiofiles.os.AiofilesOSError)` clause
itself raises.  The success path stores file and row with matching
filename, as the claim says. -/
theorem save_image_and_metadata_attribute_error :
    save_image_and_metadata ⟨[], []⟩ "u1" 0 "p" none true false
        "photo.jpg" =
      (⟨["u1.jpg"], []⟩, Except.error "AttributeError") ∧
    save_image_and_metadata ⟨[], []⟩ "u1" 0 "p" none false true
        "photo.jpg" =
      (⟨["u1.jpg"], []⟩, Except.error "AttributeError") ∧
    save_image_and_metadata ⟨[], []⟩ "u1" 0 "p" none true true
        "photo.jpg" =
      (⟨["u1.jpg"], [⟨"u1", "p", none, "u1.jpg", 0⟩]⟩,
       Except.ok (some ⟨"u1", "p", none, "u1.jpg", 0⟩)) :=
  ⟨rfl, rfl, rfl⟩

/-! ## `backend/app/services/openai_service.py` — the retry strategy

`retry_strategy` (openai_service.py, lines 35-40) is
`tenacity.retry(stop=stop_after_attempt(3),
wait=wait_exponential(multiplier=1, min=2, max=10),
retry=retry_if_exception_type((RateLimitError, httpx.TimeoutException,
httpx.NetworkError)), reraise=True)`.  The decorated bodies are embedded as
functions of the outcome of the underlying `client.responses.create`
call; the `n`-th attempt's outcome is `outcomes n` (1-indexed, as in
tenacity's `attempt_number`). -/

/-- The exception classes the service distinguishes. -/
inductive PyExc where
  | rateLimitError
  | apiError
  | timeoutException
  | networkError
  | otherError
deriving DecidableEq

/-- Outcome of one underlying API call: either the response's
`output` — the list of each item's `result` attribute (`none` when the
attribute is absent) — or a raised exception. -/
inductive CallOutcome where
  | success (output : List (Option String))
  | failure (e : PyExc)

/-- The comprehension `[item.result for item in response.output if getattr(item, "result",
None)]` (openai_service.py, lines 180-182): Python truthiness drops both
missing and empty results. -/
def extract_image_data (output : List (Option String)) : List String :=
  output.filterMap (fun r =>
    match r with
    | some s => if s = "" then none else some s
    | none => none)

/-- The `try/except` body of `generate_image_from_prompt`
(openai_service.py, lines 163-207): `RateLimitError`, timeouts and network
errors are re-raised for tenacity, while `APIError` and unexpected
exceptions are swallowed into the result `(None, None)`; success returns
`(image_data_list, None)`. -/
def generate_body (o : CallOutcome) :
    Except PyExc (Option (List String) × Option String) :=
  match o with
  | .success output => .ok (some (extract_image_data output), none)
  | .failure .rateLimitError => .error .rateLimitError
  | .failure .apiError => .ok (none, none)
  | .failure .timeoutException => .error .timeoutException
  | .failure .networkError => .error .networkError
  | .failure .otherError => .ok (none, none)

/-- The `try/except` body of `edit_image_from_prompt` (openai_service.py,
lines 325-382); same exception discipline, result `None` on `APIError`. -/
def edit_body (o : CallOutcome) : Except PyExc (Option (List String)) :=
  match o with
  | .success output => .ok (some (extract_image_data output))
  | .failure .rateLimitError => .error .rateLimitError
  | .failure .apiError => .ok none
  | .failure .timeoutException => .error .timeoutException
  | .failure .networkError => .error .networkError
  | .failure .otherError => .ok none

/-- Embeds `retry_if_exception_type((RateLimitError, httpx.TimeoutException,
httpx.NetworkError))`. -/
def retry_on_exception (e : PyExc) : Bool :=
  match e with
  | .rateLimitError => true
  | .timeoutException => true
  | .networkError => true
  | _ => false

/-- tenacity's `wait_exponential(multiplier, min, max)` evaluated after the
`n`-th attempt: `max(min, min(multiplier * 2 ** n, max))`. -/
def wait_exponential (multiplier minW maxW n : Nat) : Nat :=
  max minW (min (multiplier * 2 ^ n) maxW)

/-- tenacity's retry loop with `stop_after_attempt stopAfter` and
`reraise=True`: run the body on attempt `attemptNo`; on a retryable
exception with `attemptNo < stopAfter`, sleep `waitFn attemptNo` and try
again, otherwise re-raise.  Returns the final result, the number of the
last attempt made, and the list of waits slept.  `fuel` makes the
recursion structural; every use below instantiates `fuel := stopAfter`,
which the guard `attemptNo < stopAfter` keeps from running out. -/
def retry_call (body : CallOutcome → Except PyExc α)
    (shouldRetry : PyExc → Bool) (waitFn : Nat → Nat) (stopAfter : Nat)
    (outcomes : Nat → CallOutcome) :
    Nat → Nat → Except PyExc α × Nat × List Nat
  | 0, attemptNo => (body (outcomes attemptNo), attemptNo, [])
  | fuel + 1, attemptNo =>
      match body (outcomes attemptNo) with
      | .ok v => (.ok v, attemptNo, [])
      | .error e =>
          if shouldRetry e = true ∧ attemptNo < stopAfter then
            let rest := retry_call body shouldRetry waitFn stopAfter
              outcomes fuel (attemptNo + 1)
            (rest.1, rest.2.1, waitFn attemptNo :: rest.2.2)
          else (.error e, attemptNo, [])

/-- Embeds `@retry_strategy async def generate_image_from_prompt`
(openai_service.py, lines 149-207). -/
def generate_image_from_prompt (outcomes : Nat → CallOutcome) :
    Except PyExc (Option (List String) × Option String) × Nat × List Nat :=
  retry_call generate_body retry_on_exception
    (fun n => wait_exponential 1 2 10 n) 3 outcomes 3 1

/-- Embeds `@retry_strategy async def edit_image_from_prompt`
(openai_service.py, lines 300-382). -/
def edit_image_from_prompt (outcomes : Nat → CallOutcome) :
    Except PyExc (Option (List String)) × Nat × List Nat :=
  retry_call edit_body retry_on_exception
    (fun n => wait_exponential 1 2 10 n) 3 outcomes 3 1

/-- Behaviour of the retry loop, by induction on the fuel: attempt numbers
grow, stay bounded by `stopAfter`, the waits are exactly `waitFn` of the
attempts that were retried, every retried attempt failed with a retryable
exception, and the final result is the final attempt's result. -/
theorem retry_call_props (body : CallOutcome → Except PyExc α)
    (waitFn : Nat → Nat) (stopAfter : Nat) (outcomes : Nat → CallOutcome) :
    ∀ fuel attemptNo,
      attemptNo ≤
        (retry_call body retry_on_exception waitFn stopAfter outcomes fuel
          attemptNo).2.1 ∧
      (attemptNo ≤ stopAfter →
        (retry_call body retry_on_exception waitFn stopAfter outcomes fuel
          attemptNo).2.1 ≤ stopAfter) ∧
      (retry_call body retry_on_exception waitFn stopAfter outcomes fuel
          attemptNo).2.2 =
        (List.range' attemptNo
          ((retry_call body retry_on_exception waitFn stopAfter outcomes
            fuel attemptNo).2.1 - attemptNo)).map waitFn ∧
      (∀ k, attemptNo ≤ k →
        k < (retry_call body retry_on_exception waitFn stopAfter outcomes
          fuel attemptNo).2.1 →
        ∃ e, body (outcomes k) = .error e ∧ retry_on_exception e = true) ∧
      ((retry_call body retry_on_exception waitFn stopAfter outcomes fuel
          attemptNo).1 =
        body (outcomes
          (retry_call body retry_on_exception waitFn stopAfter outcomes
            fuel attemptNo).2.1)) := by
  intro fuel
  induction fuel with
  | zero =>
      intro attemptNo
      refine ⟨le_refl _, fun h => h, by simp [retry_call], ?_, rfl⟩
      intro k hk1 hk2
      exact absurd (lt_of_le_of_lt hk1 hk2) (lt_irrefl _)
  | succ fuel ih =>
      intro attemptNo
      unfold retry_call
      cases hbody : body (outcomes attemptNo) with
      | ok v =>
          refine ⟨le_refl _, fun h => h, by simp, ?_, hbody.symm⟩
          intro k hk1 hk2
          exact absurd (lt_of_le_of_lt hk1 hk2) (lt_irrefl _)
      | error e =>
          dsimp only
          by_cases hguard :
              retry_on_exception e = true ∧ attemptNo < stopAfter
          · rw [if_pos hguard]
            obtain ⟨ihle, ihbound, ihwaits, ihretry, ihfinal⟩ :=
              ih (attemptNo + 1)
            refine ⟨?_, ?_, ?_, ?_, ?_⟩
            · exact le_trans (Nat.le_succ _) ihle
            · intro _
              exact ihbound hguard.2
            · rw [ihwaits]
              have hn : (retry_call body retry_on_exception waitFn
                    stopAfter outcomes fuel (attemptNo + 1)).2.1 -
                  attemptNo =
                  ((retry_call body retry_on_exception waitFn stopAfter
                    outcomes fuel (attemptNo + 1)).2.1 -
                    (attemptNo + 1)) + 1 := by omega
              rw [hn, List.range'_succ, List.map_cons]
            · intro k hk1 hk2
              rcases Nat.eq_or_lt_of_le hk1 with heq | hlt
              · subst heq
                exact ⟨e, hbody, hguard.1⟩
              · exact ihretry k hlt hk2
            · exact ihfinal
          · rw [if_neg hguard]
            refine ⟨le_refl _, fun h => h, by simp, ?_, hbody.symm⟩
            intro k hk1 hk2
            exact absurd (lt_of_le_of_lt hk1 hk2) (lt_irrefl _)

/-- Claim C3: for every schedule of call outcomes, `generate_image_from_prompt`
and `edit_image_from_prompt` under `retry_strategy` make at most 3 attempts;
the waits slept are exponentially growing and clamped to the interval
`[2, 10]` seconds (concretely `[]`, `[2]` or `[2, 4]`); every retried
attempt failed with `RateLimitError`, a timeout or a network error (nothing
else is ever retried); the overall result is the final attempt's result —
in particular the final attempt's exception is re-raised (`reraise=True`);
and an `APIError` is swallowed by the body into a `None` result on the
first attempt, with no retry and no wait. -/
theorem retry_strategy_spec (outcomes : Nat → CallOutcome) :
    (generate_image_from_prompt outcomes).2.1 ≤ 3 ∧
    (edit_image_from_prompt outcomes).2.1 ≤ 3 ∧
    ((generate_image_from_prompt outcomes).2.2 = [] ∨
      (generate_image_from_prompt outcomes).2.2 = [2] ∨
      (generate_image_from_prompt outcomes).2.2 = [2, 4]) ∧
    ((edit_image_from_prompt outcomes).2.2 = [] ∨
      (edit_image_from_prompt outcomes).2.2 = [2] ∨
      (edit_image_from_prompt outcomes).2.2 = [2, 4]) ∧
    (∀ k, 1 ≤ k → k < (generate_image_from_prompt outcomes).2.1 →
      ∃ e, generate_body (outcomes k) = Except.error e ∧
        retry_on_exception e = true) ∧
    (∀ k, 1 ≤ k → k < (edit_image_from_prompt outcomes).2.1 →
      ∃ e, edit_body (outcomes k) = Except.error e ∧
        retry_on_exception e = true) ∧
    ((generate_image_from_prompt outcomes).1 =
      generate_body (outcomes (generate_image_from_prompt outcomes).2.1)) ∧
    ((edit_image_from_prompt outcomes).1 =
      edit_body (outcomes (edit_image_from_prompt outcomes).2.1)) ∧
    (outcomes 1 = CallOutcome.failure PyExc.apiError →
      generate_image_from_prompt outcomes = (Except.ok (none, none), 1, []) ∧
      edit_image_from_prompt outcomes = (Except.ok none, 1, [])) := by
  obtain ⟨hg1, hg2, hg3, hg4, hg5⟩ := retry_call_props generate_body
    (fun n => wait_exponential 1 2 10 n) 3 outcomes 3 1
  obtain ⟨he1, he2, he3, he4, he5⟩ := retry_call_props edit_body
    (fun n => wait_exponential 1 2 10 n) 3 outcomes 3 1
  have hgbound : (generate_image_from_prompt outcomes).2.1 ≤ 3 :=
    hg2 (by omega)
  have hebound : (edit_image_from_prompt outcomes).2.1 ≤ 3 :=
    he2 (by omega)
  have hglow : 1 ≤ (generate_image_from_prompt outcomes).2.1 := hg1
  have helow : 1 ≤ (edit_image_from_prompt outcomes).2.1 := he1
  refine ⟨hgbound, hebound, ?_, ?_, hg4, he4, hg5, he5, ?_⟩
  · have hcase : (generate_image_from_prompt outcomes).2.1 = 1 ∨
        (generate_image_from_prompt outcomes).2.1 = 2 ∨
        (generate_image_from_prompt outcomes).2.1 = 3 := by omega
    rcases hcase with h | h | h <;>
      · rw [show (generate_image_from_prompt outcomes).2.2 =
            (List.range' 1 ((generate_image_from_prompt outcomes).2.1 - 1)
              ).map (fun n => wait_exponential 1 2 10 n) from hg3, h]
        simp [List.range', wait_exponential]
  · have hcase : (edit_image_from_prompt outcomes).2.1 = 1 ∨
        (edit_image_from_prompt outcomes).2.1 = 2 ∨
        (edit_image_from_prompt outcomes).2.1 = 3 := by omega
    rcases hcase with h | h | h <;>
      · rw [show (edit_image_from_prompt outcomes).2.2 =
            (List.range' 1 ((edit_image_from_prompt outcomes).2.1 - 1)
              ).map (fun n => wait_exponential 1 2 10 n) from he3, h]
        simp [List.range', wait_exponential]
  · intro h
    constructor
    · simp [generate_image_from_prompt, retry_call, h, generate_body]
    · simp [edit_image_from_prompt, retry_call, h, edit_body]

/-- Witness for `retry_strategy_spec`: when every attempt raises
`APIError`, both functions return a `None`-carrying success after exactly
one attempt and no waits. -/
theorem retry_strategy_spec_witness :
    generate_image_from_prompt (fun _ => CallOutcome.failure PyExc.apiError)
        = (Except.ok (none, none), 1, []) ∧
    edit_image_from_prompt (fun _ => CallOutcome.failure PyExc.apiError)
        = (Except.ok none, 1, []) :=
  (retry_strategy_spec
    (fun _ => CallOutcome.failure PyExc.apiError)).2.2.2.2.2.2.2.2 rfl

/-! ## `openai_service.save_image_from_base64` (lines 384-453)

The `for idx, image_data in enumerate(image_data_list)` loop decodes each
base64 string, writes the bytes to `IMAGE_DIR/<uuid4>_<idx>.png`, builds an
`ImageMetadata`, then runs `await save_image_metadata(metadata)`
(openai_service.py, line 431).  But `image_service.save_image_metadata` is
a plain sync `def` returning the metadata id as a `str`: the call itself
runs to completion — committing the row on success, raising
`sqlite3.Error` on failure — and then the `await` on its `str` result
raises `TypeError` (a `str` is not awaitable).  Either exception lands in
the generic `except Exception` branch, whose cleanup deletes the files
recorded in `metadata_list`; `metadata_list` is still empty (the `append`
on line 432 is never reached), so nothing is cleaned up and the function
returns `None`.  Hence only the first iteration ever runs: for every
non-empty input the first file (and, when the insert committed, the first
row) is left behind and the result is `None`.  Library and environment
effects are parameters: `decode` is `base64.b64decode` (returning `none`
for a `binascii.Error`, whose dedicated `except` returns `None` with no
cleanup), `mkName idx` / `metaId idx` / `ts idx` are the generated
filename, `uuid4()` id and `datetime.now` timestamp of iteration `idx`
(only index 0 is reachable), and `dbOk idx` says whether the `idx`-th
insert commits before the `await` raises.  File writes are modelled as
total; the `IOError` branch (log and return `None`) is behaviourally the
`binascii` branch. -/

/-- Filesystem (filename to bytes) and metadata table as seen by
`openai_service`. -/
structure OpenAIStore where
  files : List (String × List Nat)
  rows : List ImageMetadata
deriving DecidableEq

/-- Python's `revised_prompt or prompt` (truthiness: `None` and `""` both
fall back). -/
def py_or_else (a : Option String) (b : String) : String :=
  match a with
  | some s => if s = "" then b else s
  | none => b

/-- Embeds `save_image_from_base64` (openai_service.py, lines 384-453) as
the source runs: an empty list skips the loop and returns the empty
`metadata_list`; otherwise the first iteration decodes (a `binascii.Error`
returns `None` untouched), writes the file, runs the sync insert, and the
`await` on the insert's `str` result raises `TypeError`, so the generic
`except` returns `None` — the first file, and the committed first row,
are left behind, and the cleanup loop over the still-empty
`metadata_list` removes nothing. -/
def save_image_from_base64 (decode : String → Option (List Nat))
    (mkName : Nat → String) (metaId : Nat → String) (ts : Nat → Int)
    (dbOk : Nat → Bool) (promptText : String)
    (revisedPrompt : Option String) (params : Option String)
    (imageDataList : List String) (st : OpenAIStore) :
    OpenAIStore × Option (List ImageMetadata) :=
  match imageDataList with
  | [] => (st, some [])
  | d :: _ =>
      match decode d with
      | none => (st, none)
      | some bytes =>
          let filename := mkName 0
          let m : ImageMetadata :=
            ⟨metaId 0, py_or_else revisedPrompt promptText, params,
              filename, ts 0⟩
          if dbOk 0 then
            ({ files := st.files ++ [(filename, bytes)],
               rows := st.rows ++ [m] }, none)
          else
            ({ files := st.files ++ [(filename, bytes)],
               rows := st.rows }, none)

/-- Claim C2 (refutation of the claimed behaviour on the source, plus an
evaluation at the failing input): for every non-empty input list —
decodable or not, insert committing or not — `save_image_from_base64`
returns `None`, never the claimed one-entry-per-image metadata list,
because the `await` of the sync `save_image_metadata` result raises
`TypeError` in the first iteration; concretely, one valid base64 image
with a committing insert leaves the file written and the row committed
and still yields `None`, with nothing rolled back. -/
theorem save_image_from_base64_await_type_error :
    (∀ (decode : String → Option (List Nat)) (mkName : Nat → String)
        (metaId : Nat → String) (ts : Nat → Int) (dbOk : Nat → Bool)
        (promptText : String) (revisedPrompt : Option String)
        (params : Option String) (d : String) (rest : List String)
        (st : OpenAIStore),
      (save_image_from_base64 decode mkName metaId ts dbOk promptText
        revisedPrompt params (d :: rest) st).2 = none) ∧
    save_image_from_base64
        (fun s => if s = "" then none else some [s.length])
        (fun i => "u_" ++ toString i ++ ".png")
        (fun i => "m" ++ toString i) (fun i => (i : Int)) (fun _ => true)
        "prompt" none none ["aGk="] ⟨[], []⟩ =
      (⟨[("u_0.png", [4])], [⟨"m0", "prompt", none, "u_0.png", 0⟩]⟩,
       none) := by
  constructor
  · intro decode mkName metaId ts dbOk promptText revisedPrompt params d
      rest st
    cases hdec : decode d with
    | none => simp [save_image_from_base64, hdec]
    | some bytes =>
        cases hdb : dbOk 0 <;>
          simp [save_image_from_base64, hdec, hdb]
  · rfl

/-! ## Streaming: `generate_image_from_prompt_stream` and the SSE route

`generate_image_from_prompt_stream` (openai_service.py, lines 42-147)
translates the OpenAI event stream into chunk dicts; the `generate()`
closure of `handle_generate_image_stream` (generation_routes.py, lines
71-144) translates those chunks into server-sent events — each `yield` of
the closure is one `data: ...` SSE event.  Python dicts with the keys
`"type"`, `"data"`, `"error"`, `"index"` are modelled as a structure of
`Option` fields (a missing key raises `KeyError`, whose `str` is the quoted
key name); JSON payload values are a small sum type. -/

/-- A JSON payload value carried under a chunk's `"data"` key. -/
inductive ChunkData where
  | textData (s : String)
  | statusObj (status : String)
  | errObj (msg : String)
deriving DecidableEq

/-- A chunk dict yielded by the service generator. -/
structure Chunk where
  ctype : String
  cdata : Option ChunkData := none
  cerror : Option String := none
  cindex : Option Nat := none
deriving DecidableEq

/-- One server-sent `data:` event yielded by the route's generator. -/
inductive SSEEvent where
  | progress (d : ChunkData)
  | partialImage (d : ChunkData)
  | errorEvent (msg : String)
  | complete (meta : ImageMetadata) (imageData : ChunkData)
deriving DecidableEq

/-- Python's `str(KeyError(k))` is the repr of the key: `'k'`. -/
def py_key_error (k : String) : String := "'" ++ k ++ "'"

/-- How the route's `async for` loop ended. -/
inductive RelayEnd where
  | completed
  | returned
  | excCaught
deriving DecidableEq

/-- The `async for chunk in ...` loop of the route's `generate()` closure
(generation_routes.py, lines 75-104): relays `progress` chunks, relays
`image` chunks as `partial_image` events while collecting their data,
relays `error` chunks and returns, and silently skips every other chunk
type (including the service's `partial_image` chunks).  A missing dict key
raises `KeyError`, which the closure's outer `except` turns into a final
error event.  Returns the events yielded, the collected image data, and
how the loop ended. -/
def sse_relay : List Chunk → List SSEEvent × List ChunkData × RelayEnd
  | [] => ([], [], .completed)
  | c :: rest =>
      if c.ctype = "progress" then
        match c.cdata with
        | some d =>
            let r := sse_relay rest
            (.progress d :: r.1, r.2.1, r.2.2)
        | none => ([.errorEvent (py_key_error "data")], [], .excCaught)
      else if c.ctype = "image" then
        match c.cdata with
        | some d =>
            let r := sse_relay rest
            (.partialImage d :: r.1, d :: r.2.1, r.2.2)
        | none => ([.errorEvent (py_key_error "data")], [], .excCaught)
      else if c.ctype = "error" then
        match c.cerror with
        | some m => ([.errorEvent m], [], .returned)
        | none => ([.errorEvent (py_key_error "error")], [], .excCaught)
      else
        sse_relay rest

/-- The route's `generate()` closure end to end (generation_routes.py,
lines 71-144): run the relay loop; when it completed normally and image
data was collected, call `save_image_from_base64` and emit one final
`complete` event (or a save-failure error event).  The save call's outcome
is the parameter `saveResult` (`none` both for a `None` return and for an
empty list, which Python's `if saved_metadata_list:` treats alike). -/
def sse_generate (chunks : List Chunk) (saveResult : Option ImageMetadata) :
    List SSEEvent :=
  match (sse_relay chunks).2.2 with
  | .returned => (sse_relay chunks).1
  | .excCaught => (sse_relay chunks).1
  | .completed =>
      match (sse_relay chunks).2.1 with
      | [] => (sse_relay chunks).1
      | d :: _ =>
          match saveResult with
          | some meta => (sse_relay chunks).1 ++ [.complete meta d]
          | none =>
              (sse_relay chunks).1 ++
                [.errorEvent "Failed to save generated image"]

/-- Events of the upstream OpenAI response stream as the service
distinguishes them: `response.in_progress`,
`response.image_generation_call.generating`,
`response.image_generation_call.partial_image` (payload present iff the
event has the attribute `partial_image_b64`), `response.completed`
(carrying each `output` item's `result` attribute, `none` when the item is
not an image-generation call or has no result), and anything else. -/
inductive OpenAIEvent where
  | inProgress
  | generating
  | partialImage (b64 : Option String)
  | completed (output : List (Option String))
  | otherEvent
deriving DecidableEq

/-- The `response.completed` handler's scan of `event.response.output`
(openai_service.py, lines 109-129): the first item whose `result` is a
non-empty string wins; empty or missing results are skipped. -/
def svc_extract_completed (output : List (Option String)) : Option String :=
  output.findSome? (fun r =>
    match r with
    | some s => if s = "" then none else some s
    | none => none)

/-- The `async for event in stream` loop of
`generate_image_from_prompt_stream` (openai_service.py, lines 79-141),
with the running `partial_count`.  Returns the chunks yielded and whether
the generator returned early (after yielding the final image chunk). -/
def generate_stream_loop : List OpenAIEvent → Nat → List Chunk × Bool
  | [], _ => ([], false)
  | e :: rest, partialCount =>
      match e with
      | .inProgress =>
          let r := generate_stream_loop rest partialCount
          (⟨"progress", some (.statusObj "processing"), none, none⟩ :: r.1,
           r.2)
      | .generating =>
          let r := generate_stream_loop rest partialCount
          (⟨"progress", some (.statusObj "generating"), none, none⟩ :: r.1,
           r.2)
      | .partialImage (some b) =>
          let r := generate_stream_loop rest (partialCount + 1)
          (⟨"partial_image", some (.textData b), none,
            some (partialCount + 1)⟩ :: r.1, r.2)
      | .partialImage none =>
          generate_stream_loop rest (partialCount + 1)
      | .completed output =>
          match svc_extract_completed output with
          | some img => ([⟨"image", some (.textData img), none, none⟩], true)
          | none => generate_stream_loop rest partialCount
      | .otherEvent => generate_stream_loop rest partialCount

/-- Embeds `generate_image_from_prompt_stream` (openai_service.py, lines
42-147): first the `started` progress chunk, then the translated event
stream; `exc` scripts an exception raised by the upstream stream after
`events` (or by `responses.create` when `events = []`), which the
`except` clause turns into a final error chunk — with the message under
the `"data"` key as `{"error": str(e)}` — before re-raising.  When the
loop already returned (final image found) no exception can fire. -/
def generate_image_from_prompt_stream (events : List OpenAIEvent)
    (exc : Option String) : List Chunk :=
  let startChunk : Chunk := ⟨"progress", some (.statusObj "started"),
    none, none⟩
  let r := generate_stream_loop events 0
  match exc with
  | none => startChunk :: r.1
  | some m =>
      if r.2 then startChunk :: r.1
      else startChunk :: r.1 ++ [⟨"error", some (.errObj m), none, none⟩]

/-- Well-formedness of a chunk for the route: `progress` and `image`
chunks carry a `"data"` entry.  Every chunk the service yields satisfies
this. -/
def chunk_has_data (c : Chunk) : Prop :=
  (c.ctype = "progress" ∨ c.ctype = "image") → c.cdata.isSome

instance (c : Chunk) : Decidable (chunk_has_data c) :=
  if h : c.ctype = "progress" ∨ c.ctype = "image" then
    if hd : c.cdata.isSome then isTrue (fun _ => hd)
    else isFalse (fun f => hd (f h))
  else isTrue (fun hcontra => absurd hcontra h)

/-- The prefix of the chunk stream the route consumes: everything up to
and including the first `error` chunk. -/
def up_to_first_error : List Chunk → List Chunk
  | [] => []
  | c :: rest =>
      if c.ctype = "error" then [c] else c :: up_to_first_error rest

/-- The single SSE event the route emits for one consumed chunk:
`progress` and `image` chunks map to one event each (`image` is relabelled
`partial_image`), an `error` chunk maps to one error event (via the
`KeyError` handler when the chunk has no `"error"` key), and every other
chunk type is dropped. -/
def relay_event (c : Chunk) : Option SSEEvent :=
  if c.ctype = "progress" then c.cdata.map (fun d => SSEEvent.progress d)
  else if c.ctype = "image" then
    c.cdata.map (fun d => SSEEvent.partialImage d)
  else if c.ctype = "error" then
    some (.errorEvent (c.cerror.getD (py_key_error "error")))
  else none

/-- Does the chunk stream contain an `error` chunk? -/
def has_error_chunk (chunks : List Chunk) : Bool :=
  chunks.any (fun c => c.ctype = "error")

/-- The image payloads the route collects for the final save. -/
def collected_images (chunks : List Chunk) : List ChunkData :=
  (up_to_first_error chunks).filterMap
    (fun c => if c.ctype = "image" then c.cdata else none)

/-- Characterization of the relay loop: its events are the per-chunk
translation of the consumed prefix, its collected data are the image
payloads of that prefix, and it completes normally exactly when no error
chunk occurs. -/
theorem sse_relay_spec : ∀ chunks : List Chunk,
    (∀ c ∈ chunks, chunk_has_data c) →
    (sse_relay chunks).1 =
      (up_to_first_error chunks).filterMap relay_event ∧
    (sse_relay chunks).2.1 = collected_images chunks ∧
    ((sse_relay chunks).2.2 = RelayEnd.completed ↔
      has_error_chunk chunks = false)
  | [], _ => by
      simp [sse_relay, up_to_first_error, collected_images,
        has_error_chunk]
  | c :: rest, hwf => by
      have hc := hwf c (List.mem_cons_self c rest)
      obtain ⟨ih1, ih2, ih3⟩ :=
        sse_relay_spec rest (fun x hx => hwf x (List.mem_cons_of_mem c hx))
      by_cases hcp : c.ctype = "progress"
      · obtain ⟨d, hd⟩ := Option.isSome_iff_exists.mp (hc (Or.inl hcp))
        have hne : ¬ c.ctype = "error" := by rw [hcp]; decide
        have hni : ¬ c.ctype = "image" := by rw [hcp]; decide
        refine ⟨?_, ?_, ?_⟩
        · simp [sse_relay, hcp, hd, up_to_first_error, hne, relay_event,
            ih1]
        · simp [sse_relay, hcp, hd, collected_images, up_to_first_error,
            hne, hni, ih2]
        · simp [sse_relay, hcp, hd, has_error_chunk, hne, ih3]
      · by_cases hci : c.ctype = "image"
        · obtain ⟨d, hd⟩ := Option.isSome_iff_exists.mp (hc (Or.inr hci))
          have hne : ¬ c.ctype = "error" := by rw [hci]; decide
          refine ⟨?_, ?_, ?_⟩
          · simp [sse_relay, hcp, hci, hd, up_to_first_error, hne,
              relay_event, ih1]
          · simp [sse_relay, hcp, hci, hd, collected_images,
              up_to_first_error, hne, ih2]
          · simp [sse_relay, hcp, hci, hd, has_error_chunk, hne, ih3]
        · by_cases hce : c.ctype = "error"
          · cases he : c.cerror with
            | some m =>
                refine ⟨?_, ?_, ?_⟩
                · simp [sse_relay, hcp, hci, hce, he, up_to_first_error,
                    relay_event]
                · simp [sse_relay, hcp, hci, hce, he, collected_images,
                    up_to_first_error]
                · simp [sse_relay, hcp, hci, hce, he, has_error_chunk]
            | none =>
                refine ⟨?_, ?_, ?_⟩
                · simp [sse_relay, hcp, hci, hce, he, up_to_first_error,
                    relay_event]
                · simp [sse_relay, hcp, hci, hce, he, collected_images,
                    up_to_first_error]
                · simp [sse_relay, hcp, hci, hce, he, has_error_chunk]
          · refine ⟨?_, ?_, ?_⟩
            · simp [sse_relay, hcp, hci, hce, up_to_first_error,
                relay_event, ih1]
            · simp [sse_relay, hcp, hci, hce, collected_images,
                up_to_first_error, ih2]
            · simp [sse_relay, hcp, hci, hce, has_error_chunk, ih3]

/-- Claim C1 counterexample: the service's streaming generator yields
`partial_image` chunks (here: the `started` progress chunk plus one
`partial_image` chunk), but the SSE route emits an event only for the
progress chunk — two upstream chunks, one `data:` event, so the relay is
not a one-event-per-chunk pass-through. -/
theorem sse_generate_drops_partial_image_counterexample :
    (generate_image_from_prompt_stream
      [OpenAIEvent.partialImage (some "x")] none).length = 2 ∧
    (sse_generate
      (generate_image_from_prompt_stream
        [OpenAIEvent.partialImage (some "x")] none) none).length = 1 := by
  constructor <;> rfl

/-- Claim C1 (amended): for every upstream chunk sequence whose `progress` and
`image` chunks carry a `"data"` payload (true of everything the service
yields), the SSE generator emits, in upstream order, exactly one `data:`
event per chunk of type `progress`, `image` or `error` up to and including
the first `error` chunk — each event a function of its chunk alone — and
emits *no* event for `partial_image` or unrecognized chunks (they are
dropped); after a stream that ended without an error chunk it additionally
emits one final `complete` event (or save-failure error event) built from
the collected image payloads. -/
theorem sse_generate_spec (chunks : List Chunk)
    (saveResult : Option ImageMetadata)
    (hwf : ∀ c ∈ chunks, chunk_has_data c) :
    sse_generate chunks saveResult =
      (up_to_first_error chunks).filterMap relay_event ++
      (if has_error_chunk chunks then []
       else
         match collected_images chunks with
         | [] => []
         | d :: _ =>
             match saveResult with
             | some meta => [SSEEvent.complete meta d]
             | none =>
                 [SSEEvent.errorEvent "Failed to save generated image"]) := by
  obtain ⟨h1, h2, h3⟩ := sse_relay_spec chunks hwf
  unfold sse_generate
  cases hx : has_error_chunk chunks with
  | false =>
      have hend : (sse_relay chunks).2.2 = RelayEnd.completed := h3.mpr hx
      rw [hend]
      dsimp only
      rw [h1, h2]
      cases hcoll : collected_images chunks with
      | nil => simp
      | cons d tail => cases saveResult <;> simp
  | true =>
      have hend : ¬ (sse_relay chunks).2.2 = RelayEnd.completed := by
        intro hcontra
        rw [h3] at hcontra
        rw [hx] at hcontra
        cases hcontra
      cases hend2 : (sse_relay chunks).2.2 with
      | completed => exact absurd hend2 hend
      | returned => simp [h1]
      | excCaught => simp [h1]

/-- Witness for `sse_generate_spec`: a concrete upstream run — progress,
one partial image, then completion with a final image — relayed with a
successful save.  The partial-image chunk produces no event; the image
chunk is relayed as a `partial_image` event; one `complete` event follows. -/
theorem sse_generate_spec_witness :
    sse_generate
        (generate_image_from_prompt_stream
          [OpenAIEvent.inProgress, OpenAIEvent.partialImage (some "x"),
           OpenAIEvent.completed [none, some "img"]] none)
        (some ⟨"id", "p", none, "f.png", 0⟩) =
      [SSEEvent.progress (ChunkData.statusObj "started"),
       SSEEvent.progress (ChunkData.statusObj "processing"),
       SSEEvent.partialImage (ChunkData.textData "img"),
       SSEEvent.complete ⟨"id", "p", none, "f.png", 0⟩
         (ChunkData.textData "img")] := by
  rw [sse_generate_spec _ _ (by decide)]
  rfl

/-- Claim C6 (evaluation at the failing input): when the upstream call raises
`Exception("boom")` before any stream event, the service yields the
`started` progress chunk and an error chunk that carries the message under
the `"data"` key; the route's error branch reads `chunk["error"]`, so the
client receives exactly one error event and the stream terminates — but
the event's message is `str(KeyError('error'))`, i.e. the literal string
`'error'` (quotes included), not `boom`. -/
theorem stream_error_event_mismatch :
    generate_image_from_prompt_stream [] (some "boom") =
      [⟨"progress", some (ChunkData.statusObj "started"), none, none⟩,
       ⟨"error", some (ChunkData.errObj "boom"), none, none⟩] ∧
    sse_generate (generate_image_from_prompt_stream [] (some "boom"))
        none =
      [SSEEvent.progress (ChunkData.statusObj "started"),
       SSEEvent.errorEvent "\x27error\x27"] := by
  exact ⟨rfl, rfl⟩

/-- Claim C10: `validate_model_n` returns `n` unchanged exactly when
`1 ≤ n ≤ 10` and raises `ValueError` for every `n` outside that range. -/
theorem validate_model_n_spec (n : Int) :
    (validate_model_n n = Except.ok n ↔ 1 ≤ n ∧ n ≤ 10) ∧
    (n < 1 ∨ 10 < n →
      validate_model_n n =
        Except.error "The number of images (n) must be between 1 and 10.") := by
  unfold validate_model_n
  by_cases h1 : n < 1 ∨ n > 10
  · simp only [if_pos h1]
    exact ⟨⟨fun h => by simp at h, fun h => absurd h1 (by omega)⟩,
      fun _ => trivial⟩
  · simp only [if_neg h1]
    exact ⟨⟨fun _ => by omega, fun _ => trivial⟩, fun h => absurd h h1⟩

/-- Witness for `validate_model_n_spec`: `n = 3` is accepted unchanged and
`n = 11` raises. -/
theorem validate_model_n_spec_witness :
    validate_model_n 3 = Except.ok 3 ∧
    validate_model_n 11 =
      Except.error "The number of images (n) must be between 1 and 10." :=
  ⟨((validate_model_n_spec 3).1).mpr (by decide),
   (validate_model_n_spec 11).2 (Or.inr (by decide))⟩

end ImageGenGallery
